import Mathlib

/-!
Verification of the golobby/sql repository: a shallow embedding of the
SQL statement builder (`src/builder/query.go`), the ORM statement
construction and relation resolution (`src/orm.go`), and the parts of the
`querybuilder` package that `orm.go` calls (modelled from the spec where
the repository's source for them is not available).
-/

namespace GolobbySql

/-- A Go `interface{}` value as it travels through argument lists.
`slice` models a whole `[]interface{}` passed as a single variadic
element (as `InsertAll` does with `qb.WithArgs(genericValuesOf(obj, false))`). -/
inductive GoValue where
  | int : Int → GoValue
  | str : String → GoValue
  | slice : List GoValue → GoValue
deriving Repr

/-- Number of occurrences of a character in a string. -/
def countChar (c : Char) (s : String) : Nat :=
  s.data.countP (fun d => d = c)

/-- Number of `?` characters in a string: for a repeated-placeholder
dialect this is the number of placeholder markers, provided the
identifiers themselves contain no `?`. -/
def countQ (s : String) : Nat := countChar '?' s

/-- Go's `strings.Join`: elements concatenated with the separator
between consecutive elements, empty string for an empty list. -/
def joinSep (sep : String) : List String → String
  | [] => ""
  | x :: xs => xs.foldl (fun acc s => acc ++ sep ++ s) x

theorem countChar_append (c : Char) (a b : String) :
    countChar c (a ++ b) = countChar c a + countChar c b := by
  simp [countChar, String.data_append, List.countP_append]

theorem countChar_foldl (c : Char) (sep : String) (hsep : countChar c sep = 0)
    (xs : List String) (a : String) :
    countChar c (xs.foldl (fun acc s => acc ++ sep ++ s) a) =
      countChar c a + (xs.map (countChar c)).sum := by
  induction xs generalizing a with
  | nil => simp
  | cons x xs ih =>
    simp only [List.foldl_cons, ih, countChar_append, hsep, List.map_cons, List.sum_cons]
    ring

theorem countChar_joinSep (c : Char) (sep : String) (hsep : countChar c sep = 0)
    (xs : List String) :
    countChar c (joinSep sep xs) = (xs.map (countChar c)).sum := by
  cases xs with
  | nil => simp [joinSep, countChar]
  | cons x xs => simp [joinSep, countChar_foldl c sep hsep, List.sum_cons]

/-! ## The `builder` package (`src/builder/query.go`) -/

namespace builder

/-- The `whereClause` struct of `src/builder/query.go`: an ordered list of
condition fragments (the `parent` back-pointer is not part of the rendered
output and is omitted). -/
structure WhereClauseB where
  conds : List String
deriving DecidableEq, Repr

/-- `whereClause.And`: appends `"AND " + strings.Join(parts, " ")`. -/
def WhereClauseB.and (w : WhereClauseB) (parts : List String) : WhereClauseB :=
  ⟨w.conds ++ ["AND " ++ joinSep " " parts]⟩

/-- `whereClause.Or`: appends `"OR " + strings.Join(parts, " ")`. -/
def WhereClauseB.or (w : WhereClauseB) (parts : List String) : WhereClauseB :=
  ⟨w.conds ++ ["OR " ++ joinSep " " parts]⟩

/-- `whereClause.Not`: appends `"NOT " + strings.Join(parts, " ")`. -/
def WhereClauseB.not (w : WhereClauseB) (parts : List String) : WhereClauseB :=
  ⟨w.conds ++ ["NOT " ++ joinSep " " parts]⟩

/-- `whereClause.String`: fragments joined with single spaces. -/
def WhereClauseB.render (w : WhereClauseB) : String :=
  joinSep " " w.conds

/-- The `selectClause` struct (fields from `query.Select`); its `String`
method is not in the sources. Modelled from the spec: "optional
select-column/distinct clause", default projection `*` — rendered as the
column list joined with `", "`, preceded by `DISTINCT ` when distinct. -/
structure SelectClauseB where
  distinct : Bool
  columns : List String
deriving DecidableEq, Repr

/-- Modelled from the spec: rendering of the select clause (its `String`
method is outside the provided sources). -/
def SelectClauseB.render (s : SelectClauseB) : String :=
  (if s.distinct then "DISTINCT " else "") ++ joinSep ", " s.columns

/-- The `orderbyClause` struct (fields from `query.OrderBy`); its `String`
method is not in the sources. Modelled from the spec: "optional ORDER BY
(with direction)". -/
structure OrderByClauseB where
  columns : List String
  desc : Bool
deriving DecidableEq, Repr

/-- Modelled from the spec: rendering of the order-by clause. -/
def OrderByClauseB.render (o : OrderByClauseB) : String :=
  joinSep ", " o.columns ++ (if o.desc then " DESC" else "")

/-- The `groupByClause` struct (fields from `query.GroupBy`); its `String`
method is not in the sources. Modelled from the spec: "optional GROUP BY". -/
structure GroupByClauseB where
  columns : List String
deriving DecidableEq, Repr

/-- Modelled from the spec: rendering of the group-by clause. -/
def GroupByClauseB.render (g : GroupByClauseB) : String :=
  joinSep ", " g.columns

/-- The `joinClause` struct: `query.InnerJoin` and friends populate
`joinType` and `table`; the condition field and the `String` method are
outside the provided sources. Modelled from the spec: each join clause is
"type + table + condition" and renders as `<TYPE> JOIN <table> ON <condition>`. -/
structure JoinClauseB where
  joinType : String
  table : String
  cond : String
deriving DecidableEq, Repr

/-- Modelled from the spec: `<TYPE> JOIN <table> ON <condition>`. -/
def JoinClauseB.render (j : JoinClauseB) : String :=
  j.joinType ++ " JOIN " ++ j.table ++ " ON " ++ j.cond

/-- The `query` struct of `src/builder/query.go`. -/
structure Query where
  table : String
  projected : Option SelectClauseB
  filters : List WhereClauseB
  orderBy : Option OrderByClauseB
  groupBy : Option GroupByClauseB
  joins : List JoinClauseB
deriving DecidableEq, Repr

/-- `NewQuery()`: the zero-valued query. -/
def NewQuery : Query :=
  { table := "", projected := none, filters := [], orderBy := none,
    groupBy := none, joins := [] }

/-- `query.Table`. -/
def Query.tableSet (q : Query) (t : String) : Query := { q with table := t }

/-- `query.Select`: installs a non-distinct projection of the given columns. -/
def Query.select (q : Query) (columns : List String) : Query :=
  { q with projected := some ⟨false, columns⟩ }

/-- `query.Where`: appends a fresh where-clause whose first condition is
the parts joined with single spaces; returns the query with the clause
appended (the Go version returns the clause, whose `parent` is the query). -/
def Query.where (q : Query) (parts : List String) : Query :=
  { q with filters := q.filters ++ [⟨[joinSep " " parts]⟩] }

/-- Chaining a connector call (`And`/`Or`/`Not`) on the last where-clause
of the query, as the fluent Go API does through the clause's back-pointer. -/
inductive Connector where
  | and | or | not
deriving DecidableEq, Repr

/-- The literal connector keyword the Go methods prepend. -/
def Connector.keyword : Connector → String
  | .and => "AND"
  | .or => "OR"
  | .not => "NOT"

/-- Applying one connector call to a where-clause (dispatch to
`whereClause.And` / `.Or` / `.Not`). -/
def WhereClauseB.chainStep (w : WhereClauseB) : Connector × List String → WhereClauseB
  | (.and, parts) => w.and parts
  | (.or, parts) => w.or parts
  | (.not, parts) => w.not parts

/-- A whole fluent chain of connector calls on a where-clause. -/
def WhereClauseB.chain (w : WhereClauseB) (steps : List (Connector × List String)) :
    WhereClauseB :=
  steps.foldl WhereClauseB.chainStep w

/-- `query.InnerJoin` (condition supplied through the join clause's `On`
setter, which is outside the provided sources). -/
def Query.innerJoin (q : Query) (table cond : String) : Query :=
  { q with joins := q.joins ++ [⟨"INNER", table, cond⟩] }

/-- `query.LeftJoin`. -/
def Query.leftJoin (q : Query) (table cond : String) : Query :=
  { q with joins := q.joins ++ [⟨"LEFT", table, cond⟩] }

/-- `query.RightJoin`. -/
def Query.rightJoin (q : Query) (table cond : String) : Query :=
  { q with joins := q.joins ++ [⟨"RIGHT", table, cond⟩] }

/-- `query.FullOuterJoin`. -/
def Query.fullOuterJoin (q : Query) (table cond : String) : Query :=
  { q with joins := q.joins ++ [⟨"FULL OUTER", table, cond⟩] }

/-- `query.OrderBy`. -/
def Query.orderBySet (q : Query) (columns : List String) : Query :=
  { q with orderBy := some ⟨columns, false⟩ }

/-- `query.GroupBy`. -/
def Query.groupBySet (q : Query) (columns : List String) : Query :=
  { q with groupBy := some ⟨columns⟩ }

/-- `query.SQL`: renders the statement, mirroring the Go section order —
SELECT, FROM, WHERE, ORDER BY, GROUP BY, then joins — and failing (empty
string plus error) when the table is empty. The result is the pair
`(sql, optional error)` exactly as the Go function returns it. -/
def Query.sql (q : Query) : String × Option String :=
  let projected := q.projected.getD ⟨false, ["*"]⟩
  if q.table = "" then
    ("", some "table name cannot be empty")
  else
    let sections : List String :=
      ["SELECT", projected.render, "FROM " ++ q.table]
    let sections :=
      if q.filters ≠ [] then
        sections ++ ["WHERE"] ++ q.filters.map WhereClauseB.render
      else sections
    let sections :=
      match q.orderBy with
      | some o => sections ++ ["ORDER BY", o.render]
      | none => sections
    let sections :=
      match q.groupBy with
      | some g => sections ++ ["GROUP BY", g.render]
      | none => sections
    let sections :=
      if q.joins ≠ [] then sections ++ q.joins.map JoinClauseB.render
      else sections
    (joinSep " " sections, none)

/-- A database call the wrappers would hand to the collaborator: the SQL
text and the argument list. An `Except.error` result means the wrapper
returned before any call was made. -/
def Query.execOp (q : Query) (args : List GoValue) :
    Except String (String × List GoValue) :=
  match q.sql with
  | (_, some e) => .error e
  | (s, none) => .ok (s, args)

/-- `query.ExecContext`: same guard as `Exec`, same call shape. -/
def Query.execContextOp (q : Query) (args : List GoValue) :
    Except String (String × List GoValue) :=
  match q.sql with
  | (_, some e) => .error e
  | (s, none) => .ok (s, args)

/-- `query.Bind`: the query sent to the collaborator before binding rows. -/
def Query.bindOp (q : Query) (args : List GoValue) :
    Except String (String × List GoValue) :=
  match q.sql with
  | (_, some e) => .error e
  | (s, none) => .ok (s, args)

/-- `query.BindContext`. -/
def Query.bindContextOp (q : Query) (args : List GoValue) :
    Except String (String × List GoValue) :=
  match q.sql with
  | (_, some e) => .error e
  | (s, none) => .ok (s, args)

end builder

/-! ## The `querybuilder` package used by `src/orm.go`

`src/orm.go` imports `github.com/golobby/orm/querybuilder`, whose source
is not part of the provided files; its builders are modelled from the
spec (§3 Dialect, §4.3 Statement Builder) and from the SQL shapes the
spec and README document. -/

namespace querybuilder

/-- Modelled from the spec: a `Dialect` record — name, placeholder
character, and whether placeholders are numbered (`$1`) or repeated (`?`). -/
structure Dialect where
  driverName : String
  placeholderChar : String
  includeIndexInPlaceholder : Bool
deriving DecidableEq, Repr

/-- Modelled from the spec: the MySQL dialect (repeated `?` placeholders). -/
def Dialects.MySQL : Dialect :=
  { driverName := "mysql", placeholderChar := "?", includeIndexInPlaceholder := false }

/-- Modelled from the spec: the PostgreSQL dialect (numbered `$1..$N`
placeholders). -/
def Dialects.PostgreSQL : Dialect :=
  { driverName := "postgres", placeholderChar := "$", includeIndexInPlaceholder := true }

/-- Modelled from the spec: the SQLite3 dialect (repeated `?` placeholders). -/
def Dialects.SQLite3 : Dialect :=
  { driverName := "sqlite3", placeholderChar := "?", includeIndexInPlaceholder := false }

/-- Modelled from the spec: `WhereHelpers.Equal`, rendering
`<column> = <value>` (the builder package in `src` shows the analogous
helpers `Like`, `In`, `Between` with this spacing). -/
def equal (column value : String) : String :=
  column ++ " = " ++ value

/-- Modelled from the spec: `PlaceHolderGenerators.Postgres`, emitting the
numbered markers `$1 .. $N`. -/
def placeHolderGeneratorsPostgres (n : Nat) : List String :=
  (List.range n).map (fun i => "$" ++ Nat.repr (i + 1))

/-- Modelled from the spec: `PlaceHolderGenerators.MySQL`, emitting `N`
repeated `?` markers. -/
def placeHolderGeneratorsMySQL (n : Nat) : List String :=
  List.replicate n "?"

/-- Modelled from the spec: the `querybuilder.Insert` builder state —
table, column list, per-row placeholder groups (row-group boundaries
preserved), accumulated argument list. -/
structure InsertStmt where
  table : String
  columns : List String
  valueGroups : List (List String)
  args : List GoValue

/-- `Insert.Table`. -/
def InsertStmt.tableSet (i : InsertStmt) (t : String) : InsertStmt :=
  { i with table := t }

/-- `Insert.Into`. -/
def InsertStmt.into (i : InsertStmt) (cols : List String) : InsertStmt :=
  { i with columns := cols }

/-- `Insert.Values`: appends one placeholder row group. -/
def InsertStmt.values (i : InsertStmt) (phs : List String) : InsertStmt :=
  { i with valueGroups := i.valueGroups ++ [phs] }

/-- `Insert.WithArgs`: appends the given variadic arguments. -/
def InsertStmt.withArgs (i : InsertStmt) (vs : List GoValue) : InsertStmt :=
  { i with args := i.args ++ vs }

/-- The number of placeholder markers the insert statement will emit:
one per element of each row group. -/
def InsertStmt.placeholderCount (i : InsertStmt) : Nat :=
  (i.valueGroups.map List.length).sum

/-- Modelled from the spec: `Insert.Build` renders
`INSERT INTO <table> (<cols>) VALUES (<row>), (<row>), ...` (README:
`INSERT INTO users (name) VALUES (?)`), returning the SQL and the
accumulated arguments. -/
def InsertStmt.build (i : InsertStmt) : String × List GoValue :=
  ("INSERT INTO " ++ i.table ++ " (" ++ joinSep ", " i.columns ++ ") VALUES " ++
      joinSep ", " (i.valueGroups.map (fun g => "(" ++ joinSep ", " g ++ ")")),
    i.args)

/-- Modelled from the spec: the `querybuilder.Update` builder state. -/
structure UpdateStmt where
  table : String
  whereCond : String
  sets : List (String × String)
  args : List GoValue

/-- `Update.Set`: appends one `column = placeholder` pair. -/
def UpdateStmt.set (u : UpdateStmt) (k v : String) : UpdateStmt :=
  { u with sets := u.sets ++ [(k, v)] }

/-- `Update.WithArgs`. -/
def UpdateStmt.withArgs (u : UpdateStmt) (vs : List GoValue) : UpdateStmt :=
  { u with args := u.args ++ vs }

/-- Modelled from the spec: `Update.Build` renders
`UPDATE <table> SET c1 = p1, ... WHERE <cond>` (README:
`UPDATE users SET name=? WHERE id=?` up to spacing). -/
def UpdateStmt.build (u : UpdateStmt) : String × List GoValue :=
  ("UPDATE " ++ u.table ++ " SET " ++
      joinSep ", " (u.sets.map (fun kv => kv.1 ++ " = " ++ kv.2)) ++
      " WHERE " ++ u.whereCond,
    u.args)

/-- Modelled from the spec: the `querybuilder.Delete` builder and its
`Build`, rendering `DELETE FROM <table> WHERE <cond>` (README:
`DELETE FROM posts WHERE id=?`). -/
def deleteBuild (table whereCond : String) (args : List GoValue) :
    String × List GoValue :=
  ("DELETE FROM " ++ table ++ " WHERE " ++ whereCond, args)

/-- Modelled from the spec: the `querybuilder.Select` builder state. -/
structure SelectStmt where
  columns : List String
  table : String
  whereCond : String
  args : List GoValue

/-- Modelled from the spec: `Select.Build` renders
`SELECT <cols|*> FROM <table>[ WHERE <cond>]` (README:
`SELECT * FROM users`), with `*` when no projection was chosen. -/
def SelectStmt.build (s : SelectStmt) : String × List GoValue :=
  ("SELECT " ++ (if s.columns = [] then "*" else joinSep ", " s.columns) ++
      " FROM " ++ s.table ++
      (if s.whereCond = "" then "" else " WHERE " ++ s.whereCond),
    s.args)

end querybuilder

/-! ## The `orm` package (`src/orm.go`) -/

namespace orm

open querybuilder

/-- A schema field as rendered by `Connection.Schematic` and consumed by
the column logic; only the name and primary-key flag matter here.
Modelled from the spec (§3 Schema: Field has logical name, SQL column
name, is-primary-key flag). -/
structure Field where
  name : String
  isPK : Bool
deriving DecidableEq, Repr

/-- `HasManyConfig` (src/orm.go). -/
structure HasManyConfig where
  propertyTable : String
  propertyForeignKey : String
deriving DecidableEq, Repr

/-- `HasOneConfig` (src/orm.go). -/
structure HasOneConfig where
  propertyTable : String
  propertyForeignKey : String
deriving DecidableEq, Repr

/-- `BelongsToConfig` (src/orm.go). -/
structure BelongsToConfig where
  ownerTable : String
  localForeignKey : String
  foreignColumnName : String
deriving DecidableEq, Repr

/-- `BelongsToManyConfig` (src/orm.go). -/
structure BelongsToManyConfig where
  intermediateTable : String
  intermediatePropertyID : String
  intermediateOwnerID : String
  foreignTable : String
  foreignLookupColumn : String
deriving DecidableEq, Repr

/-- The relation configuration stored in a schema's relation map: in the
source an `interface{}` inspected by type assertion, here a tagged union
over the four config structs (spec §3 RelationConfig). -/
inductive RelationConfig where
  | hasMany : HasManyConfig → RelationConfig
  | hasOne : HasOneConfig → RelationConfig
  | belongsTo : BelongsToConfig → RelationConfig
  | belongsToMany : BelongsToManyConfig → RelationConfig
deriving DecidableEq, Repr

/-- Per-entity schema metadata. Modelled from the spec (§3 Schema): table
name, ordered field list, owning dialect, relation map keyed by the
related table name (the reflection code building it is outside the
provided sources). -/
structure Schema where
  table : String
  fields : List Field
  dialect : Dialect
  relations : List (String × RelationConfig)
deriving DecidableEq, Repr

/-- Modelled from the spec (§4.2): `columns(includePK)` returns the
column names in declaration order, optionally excluding the primary key. -/
def Schema.columns (s : Schema) (withPK : Bool) : List String :=
  (if withPK then s.fields else s.fields.filter (fun f => !f.isPK)).map Field.name

/-- Modelled from the spec (§4.2): the primary-key column name, the field
flagged as primary key (defaulting to `id`). -/
def Schema.pkName (s : Schema) : String :=
  match s.fields.find? (fun f => f.isPK) with
  | some f => f.name
  | none => "id"

/-- Looking up the relation config stored for a related table name. -/
def Schema.relationFor (s : Schema) (t : String) : Option RelationConfig :=
  (s.relations.find? (fun kv => kv.1 = t)).map Prod.snd

/-- The first placeholder of a statement, as orm.go computes it
repeatedly: the dialect's placeholder character, with `1` appended when
the dialect numbers its placeholders. -/
def phFirst (d : Dialect) : String :=
  d.placeholderChar ++ (if d.includeIndexInPlaceholder then "1" else "")

/-- `Insert` (src/orm.go): non-PK columns, one placeholder per column
chosen by dialect, arguments spread from the entity's values
(`WithArgs(values...)`), then `Build`. The entity's generic value
extraction is represented by the `values` parameter (one value per
non-PK column). Returns the SQL and arguments handed to `Exec`. -/
def ormInsert (s : Schema) (values : List GoValue) : String × List GoValue :=
  let cols := s.columns false
  let phs :=
    if s.dialect.placeholderChar = "$" then placeHolderGeneratorsPostgres cols.length
    else placeHolderGeneratorsMySQL cols.length
  let qb : InsertStmt := { table := "", columns := [], valueGroups := [], args := [] }
  (((qb.tableSet s.table).into cols).values phs).withArgs values |>.build

/-- The insert builder state `InsertAll` (src/orm.go) accumulates for two
or more rows: per row it appends one placeholder group and — because
`qb.WithArgs(genericValuesOf(obj, false))` passes the whole value slice
as a single variadic element — exactly one argument holding that row's
slice. -/
def insertAllStmt (s : Schema) (rows : List (List GoValue)) : InsertStmt :=
  let cols := s.columns false
  let phs := rows.map (fun _ =>
    if s.dialect.placeholderChar = "$" then placeHolderGeneratorsPostgres cols.length
    else placeHolderGeneratorsMySQL cols.length)
  let qb : InsertStmt := { table := "", columns := [], valueGroups := [], args := [] }
  let qb := (qb.tableSet s.table).into cols
  (phs.zip rows).foldl (fun acc pr => (acc.values pr.1).withArgs [GoValue.slice pr.2]) qb

/-- `InsertAll` (src/orm.go): zero rows does nothing, one row delegates to
`Insert`, two or more rows build the batch statement. Returns the SQL and
argument list produced by `Build` (the source then passes that argument
slice to `Exec` as a single element, a further quirk outside this claim). -/
def ormInsertAll (s : Schema) (rows : List (List GoValue)) :
    Option (String × List GoValue) :=
  match rows with
  | [] => none
  | [r] => some (ormInsert s r)
  | _ => some (insertAllStmt s rows).build

/-- The `for _, kv := range kvs` loop of `Update` (src/orm.go): for each
column/value pair, emit the dialect placeholder (numbered from the running
counter when the dialect numbers placeholders), `Set` the column to it,
and append the value to the arguments. -/
def updateLoop (d : Dialect) : UpdateStmt → Nat → List (String × GoValue) → UpdateStmt
  | stmt, _, [] => stmt
  | stmt, counter, (k, v) :: rest =>
    let thisPh :=
      d.placeholderChar ++ (if d.includeIndexInPlaceholder then Nat.repr counter else "")
    updateLoop d ((stmt.set k thisPh).withArgs [v]) (counter + 1) rest

/-- `Update` (src/orm.go) up to the final `Build`: WHERE on the primary
key with the first placeholder, then the SET loop with the counter
starting at 2, then the primary-key value appended to the arguments. -/
def ormUpdateStmt (s : Schema) (values : List GoValue) (pkVal : GoValue) : UpdateStmt :=
  let ph := phFirst s.dialect
  let kvs := (s.columns false).zip values
  let w := equal s.pkName ph
  let q0 : UpdateStmt := { table := s.table, whereCond := w, sets := [], args := [] }
  (updateLoop s.dialect q0 2 kvs).withArgs [pkVal]

/-- `Update` (src/orm.go): the SQL and arguments handed to `Exec`. -/
def ormUpdate (s : Schema) (values : List GoValue) (pkVal : GoValue) :
    String × List GoValue :=
  (ormUpdateStmt s values pkVal).build

/-- `Delete` (src/orm.go): WHERE on the primary key with the first
placeholder, the primary-key value as the only argument. -/
def ormDelete (s : Schema) (pkVal : GoValue) : String × List GoValue :=
  deleteBuild s.table (equal s.pkName (phFirst s.dialect)) [pkVal]

/-- `Find` (src/orm.go): SELECT of all columns from the entity's table,
WHERE on the primary key with the first placeholder, the requested id as
the only argument. -/
def ormFind (s : Schema) (id : GoValue) : String × List GoValue :=
  SelectStmt.build
    { columns := s.columns true, table := s.table,
      whereCond := equal s.pkName (phFirst s.dialect), args := [id] }

/-- `HasMany` (src/orm.go), up to the database call: looks up the relation
config stored for the target schema's table, rejecting any non-`HasMany`
variant; defaults the property table to the target schema's table and the
foreign key to `singular(ownerTable) + "_id"`; builds the SELECT and
returns the SQL/arguments the function would execute, or the error it
returns before ever querying. The external pluralize library is the
`singular` parameter. -/
def ormHasMany (singular : String → String) (ownerS outS : Schema) (ownerPK : GoValue) :
    Except String (String × List GoValue) :=
  match ownerS.relationFor outS.table with
  | some (RelationConfig.hasMany c) =>
    let c := if c.propertyTable = "" then { c with propertyTable := outS.table } else c
    let c :=
      if c.propertyForeignKey = "" then
        { c with propertyForeignKey := singular ownerS.table ++ "_id" }
      else c
    let ph := phFirst ownerS.dialect
    let built := SelectStmt.build
      { columns := [], table := c.propertyTable,
        whereCond := equal c.propertyForeignKey ph, args := [ownerPK] }
    if built.1 = "" then .error "cannot build the query" else .ok built
  | _ => .error "wrong config passed for HasMany"

/-- `HasOne` (src/orm.go), up to the database call: identical shape to
`HasMany` except the placeholder is taken from the property schema's
dialect; rejects any non-`HasOne` variant. -/
def ormHasOne (singular : String → String) (ownerS outS : Schema) (ownerPK : GoValue) :
    Except String (String × List GoValue) :=
  match ownerS.relationFor outS.table with
  | some (RelationConfig.hasOne c) =>
    let c := if c.propertyTable = "" then { c with propertyTable := outS.table } else c
    let c :=
      if c.propertyForeignKey = "" then
        { c with propertyForeignKey := singular ownerS.table ++ "_id" }
      else c
    let ph := phFirst outS.dialect
    let built := SelectStmt.build
      { columns := [], table := c.propertyTable,
        whereCond := equal c.propertyForeignKey ph, args := [ownerPK] }
    if built.1 = "" then .error "cannot build the query" else .ok built
  | _ => .error "wrong config passed for HasOne"

/-- The `for idx, field := range owner.fields` scan of `BelongsTo`
(src/orm.go): index of the last field whose name equals the local foreign
key, `0` when none matches. -/
def ownerIDIdx (fields : List Field) (name : String) : Nat :=
  fields.enum.foldl (fun acc p => if p.2.name = name then p.1 else acc) 0

/-- `BelongsTo` (src/orm.go), up to the database call: rejects any
non-`BelongsTo` variant; defaults the owner table, the local foreign key
(`singular(ownerTable) + "_id"`) and the foreign column name (`id`); the
argument is the property's value at the scanned owner-field index (the Go
code would panic past the end; here out-of-range reads a default). -/
def ormBelongsTo (singular : String → String) (propS ownerS : Schema)
    (propValues : List GoValue) : Except String (String × List GoValue) :=
  match propS.relationFor ownerS.table with
  | some (RelationConfig.belongsTo c) =>
    let c := if c.ownerTable = "" then { c with ownerTable := ownerS.table } else c
    let c :=
      if c.localForeignKey = "" then
        { c with localForeignKey := singular ownerS.table ++ "_id" }
      else c
    let c :=
      if c.foreignColumnName = "" then { c with foreignColumnName := "id" } else c
    let ph := phFirst ownerS.dialect
    let idx := ownerIDIdx ownerS.fields c.localForeignKey
    let ownerID := propValues.getD idx (GoValue.int 0)
    .ok (SelectStmt.build
      { columns := [], table := c.ownerTable,
        whereCond := equal c.foreignColumnName ph, args := [ownerID] })
  | _ => .error "wrong config passed for BelongsTo"

/-- `BelongsToMany` (src/orm.go), up to the database call: rejects any
non-`BelongsToMany` variant (with the source's literal message); defaults
the foreign lookup column and foreign table; fails when the intermediate
table is unset; defaults the two intermediate key columns; then formats
the source's literal template
`select <cols> from <table> where <col> IN (select <iOwner> from <iTable> where <iProp> = ?)`
with a hard-coded `?`, the argument list being just the property's
primary-key value. -/
def ormBelongsToMany (singular : String → String) (propS outS : Schema)
    (propPK : GoValue) : Except String (String × List GoValue) :=
  match propS.relationFor outS.table with
  | some (RelationConfig.belongsToMany c) =>
    let c :=
      if c.foreignLookupColumn = "" then
        { c with foreignLookupColumn := outS.pkName }
      else c
    let c := if c.foreignTable = "" then { c with foreignTable := outS.table } else c
    if c.intermediateTable = "" then .error "cannot infer intermediate table yet"
    else
      let c :=
        if c.intermediatePropertyID = "" then
          { c with intermediatePropertyID := singular propS.table ++ "_id" }
        else c
      let c :=
        if c.intermediateOwnerID = "" then
          { c with intermediateOwnerID := singular outS.table ++ "_id" }
        else c
      let q := "select " ++ joinSep "," (outS.columns true) ++ " from " ++ outS.table ++
        " where " ++ c.foreignLookupColumn ++ " IN (select " ++ c.intermediateOwnerID ++
        " from " ++ c.intermediateTable ++ " where " ++ c.intermediatePropertyID ++ " = ?)"
      .ok (q, [propPK])
  | _ => .error "wrong config passed for HasMany"

/-- `Add` (src/orm.go): declared but not implemented — the body is
`return nil`. The result records the returned error (`none`), the list of
database calls performed (empty) and the entities exactly as passed in
(unchanged, since the body does nothing). -/
def ormAdd {α : Type} (dest : α) (items : List α) :
    Option String × List (String × List GoValue) × α × List α :=
  (none, [], dest, items)

end orm

/-! ## Helper lemmas -/

theorem countQ_append (a b : String) : countQ (a ++ b) = countQ a + countQ b :=
  countChar_append '?' a b

theorem countQ_joinSep (sep : String) (h : countQ sep = 0) (xs : List String) :
    countQ (joinSep sep xs) = (xs.map countQ).sum :=
  countChar_joinSep '?' sep h xs

theorem string_append_eq_empty_iff (a b : String) : a ++ b = "" ↔ a = "" ∧ b = "" := by
  simp [String.ext_iff, String.data_append]

/-- Concatenation of a list of strings. -/
def concatList : List String → String
  | [] => ""
  | x :: xs => x ++ concatList xs

theorem foldl_sep_eq (sep : String) (ys : List String) (a : String) :
    ys.foldl (fun acc s => acc ++ sep ++ s) a =
      a ++ concatList (ys.map (fun y => sep ++ y)) := by
  induction ys generalizing a with
  | nil => simp [concatList]
  | cons y t ih =>
    simp only [List.foldl_cons, List.map_cons, ih, concatList]
    rw [String.append_assoc, String.append_assoc, String.append_assoc]

theorem joinSep_append_left_ne_nil (sep : String) (xs ys : List String) (h : xs ≠ []) :
    joinSep sep (xs ++ ys) =
      joinSep sep xs ++ concatList (ys.map (fun y => sep ++ y)) := by
  cases xs with
  | nil => exact absurd rfl h
  | cons x t =>
    simp only [joinSep, List.cons_append, List.foldl_append]
    exact foldl_sep_eq sep ys _

theorem updateLoop_spec (d : querybuilder.Dialect) (stmt : querybuilder.UpdateStmt)
    (counter : Nat) (kvs : List (String × GoValue)) :
    orm.updateLoop d stmt counter kvs =
      { stmt with
        sets := stmt.sets ++ kvs.zipWith (fun kv i => (kv.1,
            d.placeholderChar ++ (if d.includeIndexInPlaceholder then Nat.repr i else "")))
          (List.range' counter kvs.length 1),
        args := stmt.args ++ kvs.map Prod.snd } := by
  induction kvs generalizing stmt counter with
  | nil => simp [orm.updateLoop]
  | cons kv rest ih =>
    simp only [orm.updateLoop, ih, querybuilder.UpdateStmt.set,
      querybuilder.UpdateStmt.withArgs, List.length_cons, List.range'_succ,
      List.zipWith_cons_cons, List.map_cons]
    simp [List.append_assoc]

theorem zipWith_fst_zip {β : Type} (f : String → Nat → β) (cols : List String)
    (values : List GoValue) (idxs : List Nat) (h : cols.length ≤ values.length) :
    List.zipWith (fun kv i => f kv.1 i) (cols.zip values) idxs =
      List.zipWith f cols idxs := by
  induction cols generalizing values idxs with
  | nil => simp
  | cons c cs ih =>
    cases values with
    | nil => simp at h
    | cons v vs =>
      cases idxs with
      | nil => simp
      | cons i is =>
        simp only [List.zip_cons_cons, List.zipWith_cons_cons]
        exact congrArg _ (ih vs is (Nat.le_of_succ_le_succ h))

/-! ## Claim theorems -/

/-- C9: `Add` returns nil for every pair of arguments, performs no database
operation, and does not mutate its arguments — the source body is just
`return nil`, so the operation is declared but not implemented. -/
theorem add_unimplemented_noop (α : Type) (dest : α) (items : List α) :
    orm.ormAdd dest items = (none, [], dest, items) := rfl

/-- C7: whichever entity pair and relation functions are involved, when the
relation config stored in the owner schema for the target table is not the
variant matching the function invoked, each of `HasMany`, `HasOne`,
`BelongsTo` and `BelongsToMany` returns a misconfigured-relation error
(the literal messages of the source, including `BelongsToMany`'s
copy-pasted `HasMany` text) — an `Except.error` result here means the
function returned before building or executing any database query. -/
theorem relation_variant_mismatch_errors (singular : String → String)
    (sA sB : orm.Schema) (cfg : orm.RelationConfig) (v : GoValue)
    (vals : List GoValue)
    (hrel : sA.relationFor sB.table = some cfg) :
    ((∀ c, cfg ≠ orm.RelationConfig.hasMany c) →
      orm.ormHasMany singular sA sB v = .error "wrong config passed for HasMany") ∧
    ((∀ c, cfg ≠ orm.RelationConfig.hasOne c) →
      orm.ormHasOne singular sA sB v = .error "wrong config passed for HasOne") ∧
    ((∀ c, cfg ≠ orm.RelationConfig.belongsTo c) →
      orm.ormBelongsTo singular sA sB vals = .error "wrong config passed for BelongsTo") ∧
    ((∀ c, cfg ≠ orm.RelationConfig.belongsToMany c) →
      orm.ormBelongsToMany singular sA sB v = .error "wrong config passed for HasMany") := by
  refine ⟨fun hne => ?_, fun hne => ?_, fun hne => ?_, fun hne => ?_⟩ <;>
    cases cfg <;>
      first
        | exact absurd rfl (hne _)
        | simp [orm.ormHasMany, orm.ormHasOne, orm.ormBelongsTo,
            orm.ormBelongsToMany, hrel]

/-- C7 witness: concrete schemas where a `BelongsTo` config is stored for
the target table, so `HasMany` rejects it, and vice versa a `HasMany`
config makes `BelongsTo` reject. -/
theorem relation_variant_mismatch_errors_witness :
    orm.ormHasMany (fun s => s)
      { table := "comments", fields := [⟨"id", true⟩],
        dialect := querybuilder.Dialects.MySQL,
        relations := [("posts", orm.RelationConfig.belongsTo ⟨"", "", ""⟩)] }
      { table := "posts", fields := [⟨"id", true⟩],
        dialect := querybuilder.Dialects.MySQL, relations := [] }
      (GoValue.int 1) = .error "wrong config passed for HasMany" ∧
    orm.ormBelongsTo (fun s => s)
      { table := "posts", fields := [⟨"id", true⟩],
        dialect := querybuilder.Dialects.MySQL,
        relations := [("users", orm.RelationConfig.hasMany ⟨"", ""⟩)] }
      { table := "users", fields := [⟨"id", true⟩],
        dialect := querybuilder.Dialects.MySQL, relations := [] }
      [GoValue.int 1] = .error "wrong config passed for BelongsTo" := by
  constructor
  · exact (relation_variant_mismatch_errors (fun s => s)
      { table := "comments", fields := [⟨"id", true⟩],
        dialect := querybuilder.Dialects.MySQL,
        relations := [("posts", orm.RelationConfig.belongsTo ⟨"", "", ""⟩)] }
      { table := "posts", fields := [⟨"id", true⟩],
        dialect := querybuilder.Dialects.MySQL, relations := [] }
      (orm.RelationConfig.belongsTo ⟨"", "", ""⟩) (GoValue.int 1) [] (by rfl)).1
      (fun c h => by cases h)
  · exact (relation_variant_mismatch_errors (fun s => s)
      { table := "posts", fields := [⟨"id", true⟩],
        dialect := querybuilder.Dialects.MySQL,
        relations := [("users", orm.RelationConfig.hasMany ⟨"", ""⟩)] }
      { table := "users", fields := [⟨"id", true⟩],
        dialect := querybuilder.Dialects.MySQL, relations := [] }
      (orm.RelationConfig.hasMany ⟨"", ""⟩) (GoValue.int 1) [GoValue.int 1]
      (by rfl)).2.2.1
      (fun c h => by cases h)

/-- C6: when the stored `HasManyConfig` leaves the property foreign key
unset, `HasMany` resolves it to `singular(ownerTable) + "_id"`, and an
unset property table defaults to the target schema's table name: the
query it executes is exactly the SELECT built from those resolved values. -/
theorem hasMany_foreign_key_default (singular : String → String)
    (ownerS outS : orm.Schema) (c : orm.HasManyConfig) (pk : GoValue)
    (hrel : ownerS.relationFor outS.table = some (orm.RelationConfig.hasMany c))
    (hfk : c.propertyForeignKey = "") (hpt : c.propertyTable = "") :
    orm.ormHasMany singular ownerS outS pk =
      .ok (querybuilder.SelectStmt.build
        { columns := [], table := outS.table,
          whereCond := querybuilder.equal (singular ownerS.table ++ "_id")
            (orm.phFirst ownerS.dialect),
          args := [pk] }) := by
  obtain ⟨pt, fk⟩ := c
  simp only at hpt hfk
  subst hpt
  subst hfk
  simp only [orm.ormHasMany, hrel]
  simp only [querybuilder.SelectStmt.build, querybuilder.equal]
  simp
  intro h
  rw [string_append_eq_empty_iff, string_append_eq_empty_iff] at h
  exact absurd h.1.1 (by decide)

/-- C6 witness: owner table `posts`, target table `comments`, a singular
function sending `posts` to `post`; the resolved foreign key is `post_id`
and the query runs against the target schema's table. -/
theorem hasMany_foreign_key_default_witness :
    orm.ormHasMany (fun _ => "post")
      { table := "posts", fields := [⟨"id", true⟩],
        dialect := querybuilder.Dialects.MySQL,
        relations := [("comments", orm.RelationConfig.hasMany ⟨"", ""⟩)] }
      { table := "comments", fields := [⟨"id", true⟩],
        dialect := querybuilder.Dialects.MySQL, relations := [] }
      (GoValue.int 7) =
      .ok ("SELECT * FROM comments WHERE post_id = ?", [GoValue.int 7]) := by
  refine (hasMany_foreign_key_default (fun _ => "post")
    { table := "posts", fields := [⟨"id", true⟩],
      dialect := querybuilder.Dialects.MySQL,
      relations := [("comments", orm.RelationConfig.hasMany ⟨"", ""⟩)] }
    { table := "comments", fields := [⟨"id", true⟩],
      dialect := querybuilder.Dialects.MySQL, relations := [] }
    ⟨"", ""⟩ (GoValue.int 7) (by rfl) rfl rfl).trans ?_
  rfl

/-- C8: when the stored `BelongsToManyConfig` leaves the intermediate
table empty, `BelongsToMany` returns the source's configuration error and
never reaches the query-building step; with the intermediate table set,
every other field may be left unset — the function still succeeds
(defaults are substituted), producing a query whose only argument is the
property's primary-key value. -/
theorem belongsToMany_intermediate_required (singular : String → String)
    (propS outS : orm.Schema) (c : orm.BelongsToManyConfig) (propPK : GoValue)
    (hrel : propS.relationFor outS.table = some (orm.RelationConfig.belongsToMany c)) :
    (c.intermediateTable = "" →
      orm.ormBelongsToMany singular propS outS propPK =
        .error "cannot infer intermediate table yet") ∧
    (c.intermediateTable ≠ "" →
      ∃ q, orm.ormBelongsToMany singular propS outS propPK = .ok (q, [propPK])) := by
  constructor
  · intro h
    simp only [orm.ormBelongsToMany, hrel]
    split_ifs <;> simp_all
  · intro h
    simp only [orm.ormBelongsToMany, hrel]
    split_ifs <;> first | (exact absurd (by assumption) h) | exact ⟨_, rfl⟩

/-- C8 witness: with an empty intermediate table the call errors out; the
same relation with only the intermediate table set (all other fields
blank) succeeds. -/
theorem belongsToMany_intermediate_required_witness :
    orm.ormBelongsToMany (fun _ => "post")
      { table := "posts", fields := [⟨"id", true⟩],
        dialect := querybuilder.Dialects.MySQL,
        relations := [("categories",
          orm.RelationConfig.belongsToMany ⟨"", "", "", "", ""⟩)] }
      { table := "categories", fields := [⟨"id", true⟩],
        dialect := querybuilder.Dialects.MySQL, relations := [] }
      (GoValue.int 3) = .error "cannot infer intermediate table yet" ∧
    (∃ q, orm.ormBelongsToMany (fun _ => "post")
      { table := "posts", fields := [⟨"id", true⟩],
        dialect := querybuilder.Dialects.MySQL,
        relations := [("categories",
          orm.RelationConfig.belongsToMany ⟨"post_categories", "", "", "", ""⟩)] }
      { table := "categories", fields := [⟨"id", true⟩],
        dialect := querybuilder.Dialects.MySQL, relations := [] }
      (GoValue.int 3) = .ok (q, [GoValue.int 3])) := by
  constructor
  · exact (belongsToMany_intermediate_required (fun _ => "post")
      { table := "posts", fields := [⟨"id", true⟩],
        dialect := querybuilder.Dialects.MySQL,
        relations := [("categories",
          orm.RelationConfig.belongsToMany ⟨"", "", "", "", ""⟩)] }
      { table := "categories", fields := [⟨"id", true⟩],
        dialect := querybuilder.Dialects.MySQL, relations := [] }
      ⟨"", "", "", "", ""⟩ (GoValue.int 3) (by rfl)).1 rfl
  · exact (belongsToMany_intermediate_required (fun _ => "post")
      { table := "posts", fields := [⟨"id", true⟩],
        dialect := querybuilder.Dialects.MySQL,
        relations := [("categories",
          orm.RelationConfig.belongsToMany ⟨"post_categories", "", "", "", ""⟩)] }
      { table := "categories", fields := [⟨"id", true⟩],
        dialect := querybuilder.Dialects.MySQL, relations := [] }
      ⟨"post_categories", "", "", "", ""⟩ (GoValue.int 3) (by rfl)).2 (by decide)

/-- C10: on a well-configured relation, `BelongsToMany` succeeds with an
argument list holding exactly the property's primary-key value, its SQL
text contains exactly one `?` (the hard-coded marker of the source's
format string, assuming the identifiers themselves contain no `?`), and
the result is entirely independent of the schemas' dialects — the
dialect's placeholder character and numbering are ignored. -/
theorem belongsToMany_ignores_dialect (singular : String → String)
    (propS outS : orm.Schema) (c : orm.BelongsToManyConfig) (propPK : GoValue)
    (d1 d2 : querybuilder.Dialect)
    (hrel : propS.relationFor outS.table = some (orm.RelationConfig.belongsToMany c))
    (hit : c.intermediateTable ≠ "")
    (hcols : ∀ col ∈ outS.columns true, countQ col = 0)
    (htab : countQ outS.table = 0) (hpk : countQ outS.pkName = 0)
    (hflc : countQ c.foreignLookupColumn = 0)
    (hio : countQ c.intermediateOwnerID = 0)
    (hso : countQ (singular outS.table) = 0)
    (hitq : countQ c.intermediateTable = 0)
    (hip : countQ c.intermediatePropertyID = 0)
    (hsp : countQ (singular propS.table) = 0) :
    (∃ q, orm.ormBelongsToMany singular propS outS propPK = .ok (q, [propPK]) ∧
      countQ q = 1) ∧
    orm.ormBelongsToMany singular { propS with dialect := d1 }
      { outS with dialect := d2 } propPK =
      orm.ormBelongsToMany singular propS outS propPK := by
  have hjs : countQ (joinSep "," (outS.columns true)) = 0 := by
    rw [countQ_joinSep "," (by decide)]
    refine List.sum_eq_zero ?_
    intro x hx
    obtain ⟨col, hcol, rfl⟩ := List.mem_map.mp hx
    exact hcols col hcol
  refine ⟨?_, rfl⟩
  obtain ⟨it, ip, io, ft, flc⟩ := c
  simp only at hit hflc hio hitq hip
  simp only [orm.ormBelongsToMany, hrel]
  split_ifs <;>
    first
      | exact absurd (by assumption) hit
      | (refine ⟨_, rfl, ?_⟩
         simp only [countQ_append, hjs, htab, hpk, hflc, hio, hso, hsp, hitq, hip]
         decide)

/-- C10 witness: a fully defaulted `posts`/`categories` many-to-many
relation, evaluated under the MySQL schemas and under PostgreSQL dialects:
same single-`?` query, argument list `[pk]`. -/
theorem belongsToMany_ignores_dialect_witness :
    (∃ q, orm.ormBelongsToMany (fun _ => "thing")
      { table := "posts", fields := [⟨"id", true⟩],
        dialect := querybuilder.Dialects.MySQL,
        relations := [("categories",
          orm.RelationConfig.belongsToMany ⟨"post_categories", "", "", "", ""⟩)] }
      { table := "categories", fields := [⟨"id", true⟩, ⟨"title", false⟩],
        dialect := querybuilder.Dialects.MySQL, relations := [] }
      (GoValue.int 5) = .ok (q, [GoValue.int 5]) ∧ countQ q = 1) ∧
    orm.ormBelongsToMany (fun _ => "thing")
      { table := "posts", fields := [⟨"id", true⟩],
        dialect := querybuilder.Dialects.PostgreSQL,
        relations := [("categories",
          orm.RelationConfig.belongsToMany ⟨"post_categories", "", "", "", ""⟩)] }
      { table := "categories", fields := [⟨"id", true⟩, ⟨"title", false⟩],
        dialect := querybuilder.Dialects.PostgreSQL, relations := [] }
      (GoValue.int 5) =
      orm.ormBelongsToMany (fun _ => "thing")
      { table := "posts", fields := [⟨"id", true⟩],
        dialect := querybuilder.Dialects.MySQL,
        relations := [("categories",
          orm.RelationConfig.belongsToMany ⟨"post_categories", "", "", "", ""⟩)] }
      { table := "categories", fields := [⟨"id", true⟩, ⟨"title", false⟩],
        dialect := querybuilder.Dialects.MySQL, relations := [] }
      (GoValue.int 5) := by
  exact belongsToMany_ignores_dialect (fun _ => "thing")
    { table := "posts", fields := [⟨"id", true⟩],
      dialect := querybuilder.Dialects.MySQL,
      relations := [("categories",
        orm.RelationConfig.belongsToMany ⟨"post_categories", "", "", "", ""⟩)] }
    { table := "categories", fields := [⟨"id", true⟩, ⟨"title", false⟩],
      dialect := querybuilder.Dialects.MySQL, relations := [] }
    ⟨"post_categories", "", "", "", ""⟩ (GoValue.int 5)
    querybuilder.Dialects.PostgreSQL querybuilder.Dialects.PostgreSQL
    (by rfl) (by decide) (by decide) (by decide) (by decide) (by decide)
    (by decide) (by decide) (by decide) (by decide) (by decide)

/-- C3: finalizing a query whose table name was never set fails — `SQL()`
returns the empty string plus the error — and each wrapper (`Exec`,
`ExecContext`, `Bind`, `BindContext`) propagates that error, never
producing a call for the database collaborator; with a table set the
builder never fails, and a query with nothing but a table renders as a
bare `SELECT * FROM <table>` with every optional clause simply absent. -/
theorem empty_table_fails_before_db (q : builder.Query) (args : List GoValue) :
    (q.table = "" →
      q.sql = ("", some "table name cannot be empty") ∧
      q.execOp args = .error "table name cannot be empty" ∧
      q.execContextOp args = .error "table name cannot be empty" ∧
      q.bindOp args = .error "table name cannot be empty" ∧
      q.bindContextOp args = .error "table name cannot be empty") ∧
    (q.table ≠ "" → (q.sql).2 = none) ∧
    (∀ t, t ≠ "" →
      builder.Query.sql (builder.NewQuery.tableSet t) = ("SELECT * FROM " ++ t, none)) := by
  refine ⟨fun h => ?_, fun h => ?_, fun t ht => ?_⟩
  · simp [builder.Query.sql, builder.Query.execOp, builder.Query.execContextOp,
      builder.Query.bindOp, builder.Query.bindContextOp, h]
  · obtain ⟨t, p, f, o, g, j⟩ := q
    simp only at h
    cases o <;> cases g <;> simp [builder.Query.sql, h]
  · simp [builder.Query.sql, builder.NewQuery, builder.Query.tableSet, ht,
      builder.SelectClauseB.render, joinSep]
    rw [← String.append_assoc]
    rfl

/-- C3 witness: the zero-valued query (no table) fails with the source's
error through `SQL` and `Exec`, while setting only the table yields
`SELECT * FROM t`. -/
theorem empty_table_fails_before_db_witness :
    builder.Query.sql builder.NewQuery = ("", some "table name cannot be empty") ∧
    builder.Query.execOp builder.NewQuery [] = .error "table name cannot be empty" ∧
    builder.Query.sql (builder.NewQuery.tableSet "t") = ("SELECT * FROM t", none) := by
  refine ⟨((empty_table_fails_before_db builder.NewQuery []).1 rfl).1,
    ((empty_table_fails_before_db builder.NewQuery []).1 rfl).2.1, ?_⟩
  exact ((empty_table_fails_before_db builder.NewQuery []).2.2 "t" (by decide)).trans
    (by rfl)

theorem chain_conds (w : builder.WhereClauseB)
    (steps : List (builder.Connector × List String)) :
    (w.chain steps).conds =
      w.conds ++ steps.map (fun st => st.1.keyword ++ " " ++ joinSep " " st.2) := by
  induction steps generalizing w with
  | nil => simp [builder.WhereClauseB.chain]
  | cons st rest ih =>
    obtain ⟨c, parts⟩ := st
    have hstep : (w.chainStep (c, parts)).conds =
        w.conds ++ [c.keyword ++ " " ++ joinSep " " parts] := by
      cases c <;> rfl
    calc (w.chain ((c, parts) :: rest)).conds
        = ((w.chainStep (c, parts)).chain rest).conds := rfl
      _ = (w.chainStep (c, parts)).conds ++
            rest.map (fun st => st.1.keyword ++ " " ++ joinSep " " st.2) := ih _
      _ = w.conds ++ ((c, parts) :: rest).map
            (fun st => st.1.keyword ++ " " ++ joinSep " " st.2) := by
          rw [hstep]
          simp

/-- C4: a WHERE clause built from an initial fragment and any chain of
`And`/`Or`/`Not` calls renders as the fragments joined by single spaces,
the first un-prefixed and every later one prefixed by its connector
keyword; `query.Where` appends such a clause seeded with the space-joined
initial parts; and the spec's example `Where("y = ?").And("x = ?")` on
table `t` renders `SELECT * FROM t WHERE y = ? AND x = ?`. -/
theorem where_fragments_connector_join (q : builder.Query) (first : List String)
    (steps : List (builder.Connector × List String)) :
    ((builder.WhereClauseB.chain ⟨[joinSep " " first]⟩ steps).render =
      joinSep " " (joinSep " " first ::
        steps.map (fun st => st.1.keyword ++ " " ++ joinSep " " st.2))) ∧
    (builder.Query.where q first).filters = q.filters ++ [⟨[joinSep " " first]⟩] ∧
    (builder.Query.sql ({ builder.NewQuery with
      table := "t",
      filters := [builder.WhereClauseB.chain ⟨[joinSep " " ["y = ?"]]⟩
        [(builder.Connector.and, ["x = ?"])]] } : builder.Query)).1 =
      "SELECT * FROM t WHERE y = ? AND x = ?" := by
  refine ⟨?_, rfl, rfl⟩
  rw [builder.WhereClauseB.render, chain_conds]
  rfl

/-- The sections of `query.SQL` that precede the join clauses: SELECT,
FROM, WHERE, ORDER BY and GROUP BY, exactly as the source accumulates
them. -/
def baseSections (t : String) (p : Option builder.SelectClauseB)
    (f : List builder.WhereClauseB) (o : Option builder.OrderByClauseB)
    (g : Option builder.GroupByClauseB) : List String :=
  let projected := p.getD ⟨false, ["*"]⟩
  let s := ["SELECT", projected.render, "FROM " ++ t]
  let s := if f ≠ [] then s ++ ["WHERE"] ++ f.map builder.WhereClauseB.render else s
  let s := match o with | some ob => s ++ ["ORDER BY", ob.render] | none => s
  match g with | some gb => s ++ ["GROUP BY", gb.render] | none => s

theorem baseSections_ne_nil (t : String) (p : Option builder.SelectClauseB)
    (f : List builder.WhereClauseB) (o : Option builder.OrderByClauseB)
    (g : Option builder.GroupByClauseB) : baseSections t p f o g ≠ [] := by
  cases o <;> cases g <;> simp [baseSections] <;> split_ifs <;> simp

theorem sql_eq_base (t : String) (p : Option builder.SelectClauseB)
    (f : List builder.WhereClauseB) (o : Option builder.OrderByClauseB)
    (g : Option builder.GroupByClauseB) (j : List builder.JoinClauseB)
    (h : t ≠ "") :
    builder.Query.sql ⟨t, p, f, o, g, j⟩ =
      (joinSep " " (baseSections t p f o g ++
        (if j ≠ [] then j.map builder.JoinClauseB.render else [])), none) := by
  simp only [builder.Query.sql, baseSections]
  rw [if_neg h]
  cases o <;> cases g <;> split_ifs <;> simp_all [List.append_assoc]

/-- C5: every join renders as `<TYPE> JOIN <table> ON <condition>`, and
the SQL of a query with joins is the SQL of the same query without them
followed by the space-separated join renderings in declaration order —
i.e. the joins come last, after the WHERE, ORDER BY and GROUP BY
sections. -/
theorem joins_append_last_in_order (q : builder.Query) (h : q.table ≠ "") :
    (∀ j ∈ q.joins, builder.JoinClauseB.render j =
      j.joinType ++ " JOIN " ++ j.table ++ " ON " ++ j.cond) ∧
    (q.sql).1 = (builder.Query.sql { q with joins := [] }).1 ++
      concatList (q.joins.map (fun j => " " ++ builder.JoinClauseB.render j)) := by
  refine ⟨fun j _ => rfl, ?_⟩
  obtain ⟨t, p, f, o, g, jn⟩ := q
  simp only at h
  rw [sql_eq_base t p f o g jn h]
  show _ = (builder.Query.sql ⟨t, p, f, o, g, []⟩).1 ++ _
  rw [sql_eq_base t p f o g [] h]
  cases jn with
  | nil => simp [concatList]
  | cons jh jt =>
    rw [if_pos (by simp)]
    rw [joinSep_append_left_ne_nil " " _ _ (baseSections_ne_nil t p f o g)]
    simp [Function.comp_def]

/-- A concrete query exercising WHERE, ORDER BY and one inner join. -/
def demoJoinQuery : builder.Query :=
  { table := "users", projected := none, filters := [⟨["x = ?"]⟩],
    orderBy := some ⟨["id"], false⟩, groupBy := none,
    joins := [⟨"INNER", "posts", "posts.user_id = users.id"⟩] }

/-- C5 witness: a query with a WHERE, an ORDER BY and one inner join; the
join text lands at the very end, after the ORDER BY section. -/
theorem joins_append_last_in_order_witness :
    ((demoJoinQuery.sql).1 =
      (builder.Query.sql { demoJoinQuery with joins := [] }).1 ++
      concatList (demoJoinQuery.joins.map
        (fun j => " " ++ builder.JoinClauseB.render j))) ∧
    (demoJoinQuery.sql).1 =
      "SELECT * FROM users WHERE x = ? ORDER BY id INNER JOIN posts ON posts.user_id = users.id" := by
  refine ⟨(joins_append_last_in_order demoJoinQuery (by decide)).2, ?_⟩
  rfl

/-- A `users` schema with primary key `id` and two data columns, under the
numbered-placeholder PostgreSQL dialect. -/
def usersSchemaPostgres : orm.Schema :=
  { table := "users", fields := [⟨"id", true⟩, ⟨"name", false⟩, ⟨"email", false⟩],
    dialect := querybuilder.Dialects.PostgreSQL, relations := [] }

/-- The same `users` schema under the repeated-placeholder MySQL dialect. -/
def usersSchemaMySQL : orm.Schema :=
  { table := "users", fields := [⟨"id", true⟩, ⟨"name", false⟩, ⟨"email", false⟩],
    dialect := querybuilder.Dialects.MySQL, relations := [] }

/-- C2: under any dialect that numbers its placeholders, `Update` builds a
WHERE clause whose placeholder is number 1, SET placeholders numbered 2
through N+1 pairing the non-primary-key columns in declaration order, and
an argument list holding all SET values first with the primary-key value
appended last. -/
theorem update_where_numbered_first (s : orm.Schema) (values : List GoValue)
    (pkVal : GoValue)
    (hd : s.dialect.includeIndexInPlaceholder = true)
    (hlen : values.length = (s.columns false).length) :
    (orm.ormUpdateStmt s values pkVal).whereCond =
      s.pkName ++ " = " ++ (s.dialect.placeholderChar ++ "1") ∧
    (orm.ormUpdateStmt s values pkVal).sets =
      List.zipWith (fun k i => (k, s.dialect.placeholderChar ++ Nat.repr i))
        (s.columns false) (List.range' 2 (s.columns false).length 1) ∧
    (orm.ormUpdateStmt s values pkVal).args = values ++ [pkVal] := by
  simp only [orm.ormUpdateStmt]
  rw [updateLoop_spec]
  refine ⟨?_, ?_, ?_⟩
  · simp [querybuilder.UpdateStmt.withArgs, querybuilder.equal, orm.phFirst, hd]
  · simp only [querybuilder.UpdateStmt.withArgs, hd, if_pos]
    rw [List.length_zip, hlen, Nat.min_self]
    simp only [List.nil_append]
    exact zipWith_fst_zip (fun k i => (k, s.dialect.placeholderChar ++ Nat.repr i))
      (s.columns false) values (List.range' 2 (s.columns false).length 1)
      (le_of_eq hlen.symm)
  · simp only [querybuilder.UpdateStmt.withArgs, List.nil_append]
    rw [List.map_snd_zip (s.columns false) values (le_of_eq hlen)]

/-- C2 witness: two SET columns under PostgreSQL give `WHERE id = $1`,
`SET name = $2, email = $3`, and arguments `[set1, set2, pk]`; the full
rendered statement is checked as well. -/
theorem update_where_numbered_first_witness :
    (orm.ormUpdateStmt usersSchemaPostgres [GoValue.str "a", GoValue.str "b"]
      (GoValue.int 1)).whereCond = "id = $1" ∧
    (orm.ormUpdateStmt usersSchemaPostgres [GoValue.str "a", GoValue.str "b"]
      (GoValue.int 1)).sets = [("name", "$2"), ("email", "$3")] ∧
    (orm.ormUpdateStmt usersSchemaPostgres [GoValue.str "a", GoValue.str "b"]
      (GoValue.int 1)).args = [GoValue.str "a", GoValue.str "b", GoValue.int 1] ∧
    orm.ormUpdate usersSchemaPostgres [GoValue.str "a", GoValue.str "b"]
      (GoValue.int 1) =
      ("UPDATE users SET name = $2, email = $3 WHERE id = $1",
        [GoValue.str "a", GoValue.str "b", GoValue.int 1]) := by
  obtain ⟨h1, h2, h3⟩ := update_where_numbered_first usersSchemaPostgres
    [GoValue.str "a", GoValue.str "b"] (GoValue.int 1) (by rfl) (by rfl)
  exact ⟨h1, h2, h3, rfl⟩

/-- C1: the placeholder-count/argument-count invariant is violated by the
multi-row branch of `InsertAll`: two rows of two columns emit four `?`
markers, yet `Build` returns only two arguments, because the source
passes each row's whole value slice to `WithArgs` as a single variadic
element. A single-row `Insert` on the same schema keeps the counts equal
(two markers, two arguments), isolating the defect to the batch loop. -/
theorem insertAll_placeholder_argument_mismatch :
    orm.ormInsertAll usersSchemaMySQL
      [[GoValue.int 1, GoValue.str "a"], [GoValue.int 2, GoValue.str "b"]] =
      some ("INSERT INTO users (name, email) VALUES (?, ?), (?, ?)",
        [GoValue.slice [GoValue.int 1, GoValue.str "a"],
         GoValue.slice [GoValue.int 2, GoValue.str "b"]]) ∧
    countQ "INSERT INTO users (name, email) VALUES (?, ?), (?, ?)" = 4 ∧
    [GoValue.slice [GoValue.int 1, GoValue.str "a"],
     GoValue.slice [GoValue.int 2, GoValue.str "b"]].length = 2 ∧
    countQ (orm.ormInsert usersSchemaMySQL [GoValue.int 1, GoValue.str "a"]).1 = 2 ∧
    (orm.ormInsert usersSchemaMySQL [GoValue.int 1, GoValue.str "a"]).2.length = 2 :=
  ⟨rfl, rfl, rfl, rfl, rfl⟩

end GolobbySql
